import Mathlib

/-!
Verification of the systematic-review auditor service against its
natural-language specification.

The repository is a Python service (FastAPI + four analysis agents).  This file
is a shallow embedding of the parts of the code that the checked claims are
about:

* `app/agents/meta_analysis.py` — fixed-effect and DerSimonian-Laird pooling
  (`_fixed_effect`, `_random_effect`, `EnhancedMetaAnalysis.run`);
* `app/agents/pico_parser.py` — the rule-based PICO completeness checks;
* `app/agents/pico_parser_enhanced.py` — the LLM-backed PICO parser (LLM calls
  are modelled as oracle parameters, since they are external network calls);
* `app/agents/prisma_checker.py` and `app/agents/rob_assessor.py` — rule-based
  checks plus LLM oracles;
* `app/utils/pdf_ingest.py` — `TextExtractor.extract_pico_elements` (the regex
  engine `re` is external; the per-pattern match results are oracle inputs);
* `app/main.py` — the SSE sequence numbering of the two streaming endpoints;
* `app/orchestrator.py` and `app/langraph_orchestrator.py` — the sequential
  and graph orchestrators (the langgraph engine is external; the supervisor
  dispatch loop is embedded as written in the source).

Python floats are modelled as real numbers, Python strings as `String`,
`None`-able values as `Option`, and Python truthiness is spelled out wherever
the source relies on it (empty string / empty list / `0` are falsy).
-/

namespace SR

/-! ## Data model (app/models/schemas.py) -/

/-- Record for one effect estimate of one outcome in one study
(schema `OutcomeEffect`); `effect` and `var` are floats in the source. -/
structure OutcomeEffect where
  name : String
  effect_metric : String := "logRR"
  effect : ℝ
  var : ℝ

/-- Record for one included study (schema `StudyRecord`). -/
structure StudyRecord where
  study_id : String
  design : Option String := none
  n_total : Option Nat := none
  outcomes : List OutcomeEffect := []

/-- Record for one database search (schema `SearchDescriptor`). -/
structure SearchDescriptor where
  db : String
  platform : Option String := none
  dates : Option String := none
  strategy : Option String := none
  limits : List String := []

/-- Exclusion reason entry of a PRISMA flow (schema `ExclusionReason`). -/
structure ExclusionReason where
  reason : String
  n : Nat
deriving DecidableEq

/-- PRISMA flow counts (schema `FlowCounts`). -/
structure FlowCounts where
  identified : Option Nat := none
  deduplicated : Option Nat := none
  screened : Option Nat := none
  fulltext : Option Nat := none
  included : Option Nat := none
  excluded : Option (List ExclusionReason) := none
deriving DecidableEq

/-- Research-question record (schema `PICO`).  All four text fields are
optional in the schema; `outcomes` defaults to the empty list. -/
structure PICO where
  framework : String := "PICO"
  population : Option String := none
  intervention : Option String := none
  comparator : Option String := none
  outcomes : List String := []
deriving DecidableEq

/-- The central aggregate (schema `Manuscript`).  The `protocol` field is a
free-form string map in the source; it is modelled as an association list. -/
structure Manuscript where
  manuscript_id : String
  title : Option String := none
  journal : Option String := none
  submission_date : Option String := none
  question : Option PICO := none
  protocol : Option (List (String × String)) := none
  search : List SearchDescriptor := []
  flow : Option FlowCounts := none
  included_studies : List StudyRecord := []

/-- Evidence payloads attached to issues.  The source stores these as loose
string-keyed dicts; each constructor reproduces the exact shape built by one
of the embedded checks. -/
inductive Evidence where
  | missing (fields : List String)
  | outcomesTime (outcomes : List String) (withTimepoints : Nat)
  | compositeOutcomes (outcomes : List String)
  | population (text : String)
  | currentFramework (fw : String)
  | flowPresent (identified deduplicated screened fulltext included : Option Nat)
  | identifiedDedup (identified deduplicated : Nat)
  | providedId (pid : String)
  | studyIds (ids : List String)
  | studyId (sid : String)
  | searchedDbs (dbs : List String)
  | designCounts (total withDesign missingDesign : Nat)
  | errorText (msg : String)
  | extractionNote (method confidence : String)
  | llmBlob (tag : String)
deriving DecidableEq

/-- Issue record (schema `Issue`); `severity` and `category` are literal-string
enums in the source and are kept as strings here. -/
structure Issue where
  id : String
  severity : String
  category : String
  item : String
  evidence : Option Evidence := none
  recommendation : Option String := none
  agent : Option String := none
deriving DecidableEq

/-- Pooled-analysis record (schema `MetaResult`).  The `evidence` map only
ever receives plot file paths and LLM narrative text in the source and is
omitted from the embedding (it does not affect any checked claim). -/
structure MetaResult where
  outcome : String
  k : ℕ
  model : String
  pooled : ℝ
  se : ℝ
  ci_low : ℝ
  ci_high : ℝ
  Q : Option ℝ := none
  I2 : Option ℝ := none
  tau2 : Option ℝ := none

/-- Per-agent audit record (schema `AnalysisMethod`). -/
structure AnalysisMethod where
  agent : String
  method : String
  llm_model : Option String := none
  llm_provider : Option String := none
  fallback_reason : Option String := none
deriving DecidableEq

/-- Metadata about how the analysis ran (schema `AnalysisMetadata`); the two
always-absent cost fields are omitted. -/
structure AnalysisMetadata where
  analysis_methods : List AnalysisMethod
  llm_available : Bool
  total_llm_calls : Nat
deriving DecidableEq

/-- Review response (schema `ReviewResult`).  `analysis_metadata` is optional
in the schema but populated on every orchestrator path embedded here, so it is
kept non-optional; `extraction_info` belongs to the HTTP layer and is
omitted. -/
structure ReviewResult where
  issues : List Issue
  meta : List MetaResult
  analysis_metadata : AnalysisMetadata

/-! ## Meta-analysis statistics (app/agents/meta_analysis.py)

`_fixed_effect` and `_random_effect` are duplicated verbatim in the source
file (lines 194-249 and 401-456); the embedding below is that single shared
body.  Floats are modelled as reals. -/

/-- Embedding of `_fixed_effect` (meta_analysis.py lines 401-424).  The local
names `w`, `y`, `W`, `ybar`, `Q` mirror the Python locals; `zip(w, y)` is
`List.zipWith`. -/
noncomputable def fixed_effect (effects : List OutcomeEffect) : MetaResult :=
  let w := effects.map fun e => 1 / e.var
  let y := effects.map fun e => e.effect
  let W := w.sum
  let ybar := (List.zipWith (fun wi yi => wi * yi) w y).sum / W
  let se := Real.sqrt (1 / W)
  let ci_low := ybar - 1.96 * se
  let ci_high := ybar + 1.96 * se
  let Q := (List.zipWith (fun wi yi => wi * (yi - ybar) ^ 2) w y).sum
  let k := effects.length
  let I2 := if 0 < Q ∧ 1 < k then max 0 ((Q - ((k : ℝ) - 1)) / Q) * 100 else 0
  { outcome := "", k := k, model := "fixed", pooled := ybar, se := se,
    ci_low := ci_low, ci_high := ci_high, Q := some Q, I2 := some I2 }

/-- Embedding of `_random_effect` (meta_analysis.py lines 427-456),
the DerSimonian-Laird estimator with the x100-scaled tau-squared. -/
noncomputable def random_effect (effects : List OutcomeEffect) : MetaResult :=
  let w_fixed := effects.map fun e => 1 / e.var
  let y := effects.map fun e => e.effect
  let W := w_fixed.sum
  let ybar_fixed := (List.zipWith (fun wi yi => wi * yi) w_fixed y).sum / W
  let Q := (List.zipWith (fun wi yi => wi * (yi - ybar_fixed) ^ 2) w_fixed y).sum
  let k := effects.length
  let C := W - (w_fixed.map fun wi => wi ^ 2).sum / W
  let tau2 := if 1 < k then max 0 ((Q - ((k : ℝ) - 1)) / C) * 100 else 0
  let w_star := effects.map fun e => 1 / (e.var + tau2)
  let W_star := w_star.sum
  let ybar := (List.zipWith (fun wi yi => wi * yi) w_star y).sum / W_star
  let se := Real.sqrt (1 / W_star)
  let ci_low := ybar - 1.96 * se
  let ci_high := ybar + 1.96 * se
  let I2 := if 0 < Q ∧ 1 < k then max 0 ((Q - ((k : ℝ) - 1)) / Q) * 100 else 0
  { outcome := "", k := k, model := "random", pooled := ybar, se := se,
    ci_low := ci_low, ci_high := ci_high, Q := some Q, I2 := some I2,
    tau2 := some tau2 }

/-- Reference fixed-effect result written exactly with the formulas of the
specification: weights 1/var, pooled = weighted mean, se = sqrt of inverse
total weight, 95 percent CI, Cochran Q, and the guarded I-squared. -/
noncomputable def fixedEffectSpec (effects : List OutcomeEffect) : MetaResult :=
  let W := (effects.map fun e => 1 / e.var).sum
  let pooled := (effects.map fun e => 1 / e.var * e.effect).sum / W
  let se := Real.sqrt (1 / W)
  let k := effects.length
  let Q := (effects.map fun e => 1 / e.var * (e.effect - pooled) ^ 2).sum
  { outcome := "", k := k, model := "fixed", pooled := pooled, se := se,
    ci_low := pooled - 1.96 * se, ci_high := pooled + 1.96 * se, Q := some Q,
    I2 := some (if 0 < Q ∧ 1 < k then max 0 ((Q - ((k : ℝ) - 1)) / Q) * 100 else 0) }

/-- Reference random-effects result written with the specification formulas:
the fixed-effect weights and Q feed the DerSimonian-Laird tau-squared (with
the x100 scaling the spec designates as canonical), new weights
1/(var + tau2) give the pooled estimate, se and CI, and I-squared reuses the
fixed-effect Q. -/
noncomputable def randomEffectSpec (effects : List OutcomeEffect) : MetaResult :=
  let W := (effects.map fun e => 1 / e.var).sum
  let pooledF := (effects.map fun e => 1 / e.var * e.effect).sum / W
  let Q := (effects.map fun e => 1 / e.var * (e.effect - pooledF) ^ 2).sum
  let k := effects.length
  let C := W - (effects.map fun e => (1 / e.var) ^ 2).sum / W
  let tau2 := if 1 < k then max 0 ((Q - ((k : ℝ) - 1)) / C) * 100 else 0
  let Wstar := (effects.map fun e => 1 / (e.var + tau2)).sum
  let pooled := (effects.map fun e => 1 / (e.var + tau2) * e.effect).sum / Wstar
  let se := Real.sqrt (1 / Wstar)
  { outcome := "", k := k, model := "random", pooled := pooled, se := se,
    ci_low := pooled - 1.96 * se, ci_high := pooled + 1.96 * se, Q := some Q,
    I2 := some (if 0 < Q ∧ 1 < k then max 0 ((Q - ((k : ℝ) - 1)) / Q) * 100 else 0),
    tau2 := some tau2 }

/-- Zipping two maps over the same list is a single map. -/
theorem zipWith_map_same {α β γ δ : Type _} (h : β → γ → δ) (f : α → β) (g : α → γ)
    (l : List α) :
    List.zipWith h (l.map f) (l.map g) = l.map fun a => h (f a) (g a) := by
  induction l with
  | nil => rfl
  | cons a t ih => simp [ih]

/-- Claim C1: for every non-empty list of outcome effects with positive
variances, `_fixed_effect` returns a MetaResult with model "fixed" whose
fields equal the reference formulas (inverse-variance pooled mean,
se = sqrt(1/sum w), 95 percent CI with 1.96, Cochran Q, and
I2 = max(0,(Q-(k-1))/Q)*100 when Q>0 and k>1, else 0). -/
theorem claim1_fixed_effect_matches_spec (effects : List OutcomeEffect)
    (hne : effects ≠ []) (hvar : ∀ e ∈ effects, 0 < e.var) :
    fixed_effect effects = fixedEffectSpec effects := by
  unfold fixed_effect fixedEffectSpec
  simp only [zipWith_map_same]

/-- Claim C1 witness: the theorem applied to a concrete two-study input with
unit variances. -/
theorem claim1_witness :
    fixed_effect [{ name := "o", effect := 0.2, var := 1 },
        { name := "o", effect := 0.1, var := 1 }] =
      fixedEffectSpec [{ name := "o", effect := 0.2, var := 1 },
        { name := "o", effect := 0.1, var := 1 }] :=
  claim1_fixed_effect_matches_spec _ (by simp) (by
    intro e he
    rcases List.mem_cons.mp he with rfl | he
    · norm_num
    rcases List.mem_cons.mp he with rfl | he
    · norm_num
    · cases he)

/-- Claim C2: for every non-empty list of outcome effects with positive
variances, `_random_effect` returns a MetaResult with model "random" computed
by the DerSimonian-Laird scheme with the x100-scaled between-study variance,
weights 1/(var+tau2) fed through the fixed-effect formulas, and with Q and I2
taken from the fixed-effect computation rather than recomputed. -/
theorem claim2_random_effect_matches_spec (effects : List OutcomeEffect)
    (hne : effects ≠ []) (hvar : ∀ e ∈ effects, 0 < e.var) :
    random_effect effects = randomEffectSpec effects ∧
      (random_effect effects).Q = (fixed_effect effects).Q ∧
      (random_effect effects).I2 = (fixed_effect effects).I2 := by
  refine ⟨?_, ?_, ?_⟩
  · unfold random_effect randomEffectSpec
    simp only [zipWith_map_same, List.map_map, Function.comp_def]
  · unfold random_effect fixed_effect
    simp only [zipWith_map_same, List.map_map, Function.comp_def]
  · unfold random_effect fixed_effect
    simp only [zipWith_map_same, List.map_map, Function.comp_def]

/-- Claim C2 witness: the theorem applied to a concrete two-study input with
unit variances. -/
theorem claim2_witness :
    random_effect [{ name := "o", effect := 0.2, var := 1 },
        { name := "o", effect := 0.1, var := 1 }] =
      randomEffectSpec [{ name := "o", effect := 0.2, var := 1 },
        { name := "o", effect := 0.1, var := 1 }] :=
  (claim2_random_effect_matches_spec _ (by simp) (by
    intro e he
    rcases List.mem_cons.mp he with rfl | he
    · norm_num
    rcases List.mem_cons.mp he with rfl | he
    · norm_num
    · cases he)).1

/-! ## Outcome grouping and the per-outcome loop (EnhancedMetaAnalysis.run)

`_group_effects_by_outcome` builds a Python dict via
`outcomes.setdefault(o.name, []).append(o)` while iterating studies and, per
study, their outcome effects.  A `dict` preserves first-insertion key order,
so the embedding is an association list with an insert-or-append update. -/

/-- Append `o` to the entry of key `nm`, or add a new `(nm, [o])` entry at the
end — the behaviour of `outcomes.setdefault(o.name, []).append(o)`. -/
def groupInsert (nm : String) (o : OutcomeEffect) :
    List (String × List OutcomeEffect) → List (String × List OutcomeEffect)
  | [] => [(nm, [o])]
  | (m, os) :: rest =>
    if m = nm then (m, os ++ [o]) :: rest else (m, os) :: groupInsert nm o rest

/-- First-match association lookup, returning `[]` for an absent key (the
value a dict entry starts from in `setdefault(name, [])`). -/
def lookupGroup (n : String) : List (String × List OutcomeEffect) → List OutcomeEffect
  | [] => []
  | (m, os) :: rest => if m = n then os else lookupGroup n rest

/-- Embedding of `_group_effects_by_outcome` (meta_analysis.py lines 119-127);
the nested `for s in studies: for o in s.outcomes:` loop is the fold over the
flattened effect list. -/
def group_effects_by_outcome (studies : List StudyRecord) :
    List (String × List OutcomeEffect) :=
  (studies.flatMap fun s => s.outcomes).foldl (fun acc o => groupInsert o.name o acc) []

/-- Embedding of the statistical core of `EnhancedMetaAnalysis.run`
(meta_analysis.py lines 51-87): outcomes with fewer than 2 effects are
skipped, every other outcome contributes its fixed-effect and random-effects
result with the outcome name written onto both.  Plot generation and LLM
interpretation (lines 70-112) only add entries to the `evidence` maps, which
the embedding omits. -/
noncomputable def meta_run_results (studies : List StudyRecord) : List MetaResult :=
  (group_effects_by_outcome studies).flatMap fun g =>
    if g.2.length < 2 then []
    else [{ fixed_effect g.2 with outcome := g.1 },
          { random_effect g.2 with outcome := g.1 }]

/-- Embedding of `EnhancedMetaAnalysis.run` as a function of the manuscript. -/
noncomputable def meta_analysis_run (m : Manuscript) : List MetaResult :=
  meta_run_results m.included_studies

/-- All outcome effects carrying a given outcome name, across all included
studies, in document order. -/
def effectsNamed (n : String) (studies : List StudyRecord) : List OutcomeEffect :=
  (studies.flatMap fun s => s.outcomes).filter fun o => o.name = n

@[simp] theorem lookupGroup_nil (n : String) : lookupGroup n [] = [] := rfl

/-- Updating key `nm` only changes the entry looked up at `nm`, where it
appends the new effect. -/
theorem lookupGroup_groupInsert (n nm : String) (o : OutcomeEffect)
    (acc : List (String × List OutcomeEffect)) :
    lookupGroup n (groupInsert nm o acc) =
      if nm = n then lookupGroup n acc ++ [o] else lookupGroup n acc := by
  induction acc with
  | nil =>
    by_cases h : nm = n <;> simp [groupInsert, lookupGroup, h]
  | cons p rest ih =>
    obtain ⟨m, os⟩ := p
    by_cases hm : m = nm
    · subst hm
      by_cases hn : m = n
      · subst hn; simp [groupInsert, lookupGroup]
      · simp [groupInsert, lookupGroup, hn]
    · by_cases hn : m = n
      · subst hn
        have : ¬ nm = m := fun h => hm h.symm
        simp [groupInsert, lookupGroup, hm, this]
      · simp [groupInsert, lookupGroup, hm, hn, ih]

/-- Folding a run of effects into the accumulator appends, at each key, the
effects of that run carrying that key. -/
theorem lookupGroup_foldl (n : String) (flat : List OutcomeEffect)
    (acc : List (String × List OutcomeEffect)) :
    lookupGroup n (flat.foldl (fun a o => groupInsert o.name o a) acc) =
      lookupGroup n acc ++ flat.filter fun o => o.name = n := by
  induction flat generalizing acc with
  | nil => simp
  | cons o rest ih =>
    rw [List.foldl_cons, ih, lookupGroup_groupInsert]
    by_cases h : o.name = n <;> simp [List.filter_cons, h]

/-- The grouped entry for a name is exactly the document-order filter of all
effects with that name. -/
theorem lookupGroup_group_effects (n : String) (studies : List StudyRecord) :
    lookupGroup n (group_effects_by_outcome studies) = effectsNamed n studies := by
  rw [group_effects_by_outcome, effectsNamed, lookupGroup_foldl, lookupGroup_nil,
    List.nil_append]

/-- Keys of a grouping accumulator. -/
def groupKeys (acc : List (String × List OutcomeEffect)) : List String :=
  acc.map fun g => g.1

@[simp] theorem groupKeys_nil : groupKeys [] = [] := rfl

@[simp] theorem groupKeys_cons (m : String) (os : List OutcomeEffect)
    (rest : List (String × List OutcomeEffect)) :
    groupKeys ((m, os) :: rest) = m :: groupKeys rest := rfl

theorem groupKeys_groupInsert (nm : String) (o : OutcomeEffect)
    (acc : List (String × List OutcomeEffect)) :
    groupKeys (groupInsert nm o acc) =
      if nm ∈ groupKeys acc then groupKeys acc else groupKeys acc ++ [nm] := by
  induction acc with
  | nil => simp [groupInsert]
  | cons p rest ih =>
    obtain ⟨m, os⟩ := p
    by_cases hm : m = nm
    · subst hm; simp [groupInsert]
    · have hnm : ¬ nm = m := fun h => hm h.symm
      rw [groupInsert]
      simp only [if_neg hm, groupKeys_cons, ih, List.mem_cons]
      by_cases hmem : nm ∈ groupKeys rest <;> simp [hmem, hnm]

theorem nodup_groupKeys_groupInsert (nm : String) (o : OutcomeEffect)
    (acc : List (String × List OutcomeEffect))
    (h : (groupKeys acc).Nodup) : (groupKeys (groupInsert nm o acc)).Nodup := by
  rw [groupKeys_groupInsert]
  by_cases hmem : nm ∈ groupKeys acc
  · simpa [hmem] using h
  · rw [if_neg hmem, List.nodup_append]
    refine ⟨h, List.nodup_singleton nm, ?_⟩
    intro a ha hb
    rw [List.mem_singleton] at hb
    exact hmem (hb ▸ ha)

/-- The grouping never produces a repeated outcome name. -/
theorem nodup_groupKeys (studies : List StudyRecord) :
    (groupKeys (group_effects_by_outcome studies)).Nodup := by
  rw [group_effects_by_outcome]
  generalize (studies.flatMap fun s => s.outcomes) = flat
  have main : ∀ (flat : List OutcomeEffect) (acc : List (String × List OutcomeEffect)),
      (groupKeys acc).Nodup →
      (groupKeys (flat.foldl (fun a o => groupInsert o.name o a) acc)).Nodup := by
    intro flat
    induction flat with
    | nil => intro acc h; simpa using h
    | cons o rest ih =>
      intro acc h
      rw [List.foldl_cons]
      exact ih _ (nodup_groupKeys_groupInsert _ _ _ h)
  exact main flat [] (by simp)

/-- A key absent from the accumulator looks up to the empty run. -/
theorem lookupGroup_eq_nil_of_not_mem (n : String)
    (acc : List (String × List OutcomeEffect)) (h : n ∉ groupKeys acc) :
    lookupGroup n acc = [] := by
  induction acc with
  | nil => rfl
  | cons p rest ih =>
    obtain ⟨m, os⟩ := p
    rw [groupKeys_cons, List.mem_cons] at h
    push_neg at h
    have hmn : ¬ m = n := fun e => h.1 e.symm
    simp [lookupGroup, hmn, ih h.2]

/-- The pair of results the run loop emits for one grouped outcome. -/
noncomputable def outcomePair (n : String) (effs : List OutcomeEffect) : List MetaResult :=
  if effs.length < 2 then []
  else [{ fixed_effect effs with outcome := n }, { random_effect effs with outcome := n }]

@[simp] theorem outcome_update (r : MetaResult) (n : String) :
    ({ r with outcome := n }).outcome = n := rfl

theorem meta_run_results_eq_flatMap (studies : List StudyRecord) :
    meta_run_results studies =
      (group_effects_by_outcome studies).flatMap fun g => outcomePair g.1 g.2 := rfl

/-- Filtering the loop output by an outcome name isolates the pair produced
for that name (using that grouped keys are distinct). -/
theorem filter_flatMap_outcomePair (n : String)
    (groups : List (String × List OutcomeEffect))
    (hnd : (groupKeys groups).Nodup) :
    (groups.flatMap fun g => outcomePair g.1 g.2).filter (fun r => r.outcome = n) =
      outcomePair n (lookupGroup n groups) := by
  induction groups with
  | nil => simp [outcomePair]
  | cons g rest ih =>
    obtain ⟨m, os⟩ := g
    have hnd' : (groupKeys rest).Nodup := (List.nodup_cons.mp hnd).2
    have hm : m ∉ groupKeys rest := (List.nodup_cons.mp hnd).1
    rw [List.flatMap_cons, List.filter_append, ih hnd']
    by_cases hmn : m = n
    · subst hmn
      have hpair : (outcomePair m os).filter (fun r => r.outcome = m) = outcomePair m os := by
        unfold outcomePair
        by_cases hlen : os.length < 2
        · simp [hlen]
        · rw [if_neg hlen, List.filter_cons, List.filter_cons]
          simp
      have h1 : outcomePair m (lookupGroup m rest) = [] := by
        rw [lookupGroup_eq_nil_of_not_mem _ _ hm]
        simp [outcomePair]
      have h2 : lookupGroup m ((m, os) :: rest) = os := by
        simp [lookupGroup]
      rw [h1, h2, List.append_nil, hpair]
    · have hpair : (outcomePair m os).filter (fun r => r.outcome = n) = [] := by
        unfold outcomePair
        by_cases hlen : os.length < 2
        · simp [hlen]
        · rw [if_neg hlen, List.filter_cons, List.filter_cons]
          simp [hmn]
      have h2 : lookupGroup n ((m, os) :: rest) = lookupGroup n rest := by
        simp [lookupGroup, hmn]
      rw [hpair, h2, List.nil_append]

/-- Claim C3: the meta-analysis engine groups effects by outcome name across
all included studies; an outcome with fewer than 2 contributing effects
yields no MetaResult, one with at least 2 yields exactly the fixed/random
pair carrying that outcome name and k equal to the effect count; a
manuscript with no included studies yields an empty result list. -/
theorem claim3_grouping_minimum_rule (studies : List StudyRecord) (n : String)
    (m : Manuscript) :
    ((meta_run_results studies).filter (fun r => r.outcome = n) =
      if (effectsNamed n studies).length < 2 then []
      else [{ fixed_effect (effectsNamed n studies) with outcome := n },
            { random_effect (effectsNamed n studies) with outcome := n }]) ∧
    (m.included_studies = [] → meta_analysis_run m = []) ∧
    ({ fixed_effect (effectsNamed n studies) with outcome := n }).model = "fixed" ∧
    ({ random_effect (effectsNamed n studies) with outcome := n }).model = "random" ∧
    ({ fixed_effect (effectsNamed n studies) with outcome := n }).k =
      (effectsNamed n studies).length ∧
    ({ random_effect (effectsNamed n studies) with outcome := n }).k =
      (effectsNamed n studies).length := by
  refine ⟨?_, ?_, rfl, rfl, rfl, rfl⟩
  · rw [meta_run_results_eq_flatMap,
      filter_flatMap_outcomePair n _ (nodup_groupKeys studies),
      lookupGroup_group_effects]
    rfl
  · intro h
    simp [meta_analysis_run, h, meta_run_results, group_effects_by_outcome]

/-- Claim C3 witness: the empty-manuscript conjunct applied to a concrete
manuscript with no included studies. -/
theorem claim3_witness :
    meta_analysis_run { manuscript_id := "m-empty" } = [] :=
  (claim3_grouping_minimum_rule [] "mortality" { manuscript_id := "m-empty" }).2.1 rfl

/-! ## Rule-based PICO parser (app/agents/pico_parser.py)

Python truthiness drives the completeness check: `not q.population` is true
for both `None` and the empty string, while the comparator test is literally
`q.comparator is None`.  The `re.search` call for the age pattern goes
through the external regex engine and is modelled as an oracle parameter
`ageSearch`; every other check is plain substring matching and is embedded
directly. -/

/-- Truthiness of an optional string: Python `not x` holds for `None` and
for the empty string. -/
def optStrFalsy : Option String → Bool
  | none => true
  | some s => s = ""

/-- Character-list prefix test (no library dependence). -/
def charsAtFront : List Char → List Char → Bool
  | [], _ => true
  | _ :: _, [] => false
  | a :: as, b :: bs => a = b && charsAtFront as bs

/-- Character-list substring test. -/
def charsSub (needle : List Char) : List Char → Bool
  | [] => charsAtFront needle []
  | b :: bs => charsAtFront needle (b :: bs) || charsSub needle bs

/-- Python `needle in hay` on strings. -/
def strContains (hay needle : String) : Bool :=
  charsSub needle.toList hay.toList

/-- Embedding of `_validate_outcome_quality` (pico_parser.py lines 8-42).
The `len(outcomes_with_time) < len(outcomes) * 0.5` float comparison is exact
rational arithmetic.  Example parentheticals inside recommendation strings
are elided. -/
def validate_outcome_quality (outcomes : List String) : List Issue :=
  let time_keywords := ["week", "month", "year", "day", "follow-up", "endpoint"]
  let outcomes_with_time :=
    outcomes.filter fun o => time_keywords.any fun kw => strContains o.toLower kw
  let composite_keywords := ["composite", "combined", "major", "composite of"]
  let composite_outcomes :=
    outcomes.filter fun o => composite_keywords.any fun kw => strContains o.toLower kw
  (if (outcomes_with_time.length : ℚ) < (outcomes.length : ℚ) * 0.5 then
    [{ id := "PICO-002", severity := "low", category := "PICO",
       item := "Outcomes lack specific timepoints",
       evidence := some (.outcomesTime outcomes outcomes_with_time.length),
       recommendation := some "Specify clear timepoints for outcomes.",
       agent := some "PICO-Parser" }]
  else []) ++
  (if composite_outcomes ≠ [] then
    [{ id := "PICO-003", severity := "medium", category := "PICO",
       item := "Composite outcomes may need component definition",
       evidence := some (.compositeOutcomes composite_outcomes),
       recommendation := some "Define individual components of composite outcomes and justify combination.",
       agent := some "PICO-Parser" }]
  else [])

/-- Embedding of `_validate_population_specificity` (pico_parser.py lines
44-74); `ageSearch` stands for `re.search(age_pattern, population.lower())
is not None`. -/
def validate_population_specificity (ageSearch : String → Bool)
    (population : String) : List Issue :=
  let severity_keywords :=
    ["stage", "grade", "severity", "mild", "moderate", "severe", "early", "advanced"]
  (if ageSearch population.toLower then []
  else
    [{ id := "PICO-004", severity := "low", category := "PICO",
       item := "Population lacks age specification",
       evidence := some (.population population),
       recommendation := some "Specify target age range or demographic.",
       agent := some "PICO-Parser" }]) ++
  (if severity_keywords.any (fun kw => strContains population.toLower kw) then []
  else
    [{ id := "PICO-005", severity := "low", category := "PICO",
       item := "Population may need disease severity/stage specification",
       evidence := some (.population population),
       recommendation := some "Consider specifying disease stage, severity, or functional status if relevant.",
       agent := some "PICO-Parser" }])

/-- The missing-element list built by `run` (pico_parser.py lines 87-111)
for a present question: population/intervention/outcomes use truthiness,
the comparator check is `q.comparator is None`. -/
def missing_elements (q : PICO) : List String :=
  (if optStrFalsy q.population then ["population"] else []) ++
  (if optStrFalsy q.intervention then ["intervention"] else []) ++
  (if q.comparator = none then ["comparator"] else []) ++
  (if q.outcomes = [] then ["outcomes"] else [])

/-- Population validation runs only when the population is truthy
(pico_parser.py line 137, `if q.population:`). -/
def population_branch (ageSearch : String → Bool) : Option String → List Issue
  | some p => if p ≠ "" then validate_population_specificity ageSearch p else []
  | none => []

@[simp] theorem population_branch_none (f : String → Bool) :
    population_branch f none = [] := rfl

@[simp] theorem population_branch_some (f : String → Bool) (p : String) :
    population_branch f (some p) =
      if p ≠ "" then validate_population_specificity f p else [] := rfl

/-- The extra validations `run` performs when a question is present
(pico_parser.py lines 127-155): outcome quality when outcomes are non-empty,
population specificity when the population is truthy, and the framework
check. -/
def pico_enhanced_checks (ageSearch : String → Bool) (q : PICO) : List Issue :=
  (if q.outcomes ≠ [] then validate_outcome_quality q.outcomes else []) ++
  population_branch ageSearch q.population ++
  (if q.framework = "PICO" ∨ q.framework = "PECO" then []
  else
    [{ id := "PICO-006", severity := "low", category := "PICO",
       item := "Consider PICO/PECO framework for intervention studies",
       evidence := some (.currentFramework q.framework),
       recommendation := some "PICO framework is standard for intervention studies; PECO for exposure studies.",
       agent := some "PICO-Parser" }])

/-- The missing list of `run`: all four elements when there is no question
(pico_parser.py lines 84-86), the per-field checks otherwise. -/
def pico_missing : Option PICO → List String
  | none => ["population", "intervention", "comparator", "outcomes"]
  | some q => missing_elements q

/-- The enhanced validations run only when a question is present
(pico_parser.py line 127). -/
def pico_question_checks (ageSearch : String → Bool) : Option PICO → List Issue
  | none => []
  | some q => pico_enhanced_checks ageSearch q

@[simp] theorem pico_missing_none : pico_missing none =
    ["population", "intervention", "comparator", "outcomes"] := rfl

@[simp] theorem pico_missing_some (q : PICO) :
    pico_missing (some q) = missing_elements q := rfl

@[simp] theorem pico_question_checks_none (f : String → Bool) :
    pico_question_checks f none = [] := rfl

@[simp] theorem pico_question_checks_some (f : String → Bool) (q : PICO) :
    pico_question_checks f (some q) = pico_enhanced_checks f q := rfl

/-- Embedding of the rule-based `run` (pico_parser.py lines 76-158). -/
def pico_parser_run (ageSearch : String → Bool) (m : Manuscript) : List Issue :=
  (if pico_missing m.question ≠ [] then
    [{ id := "PICO-001",
       severity := if 2 < (pico_missing m.question).length then "high" else "medium",
       category := "PICO", item := "Incomplete PICO specification",
       evidence := some (.missing (pico_missing m.question)),
       recommendation := some "Provide explicit PICO fields; list concrete primary/secondary outcomes with timepoints.",
       agent := some "PICO-Parser" }]
  else []) ++
  pico_question_checks ageSearch m.question

/-- Members of the outcome-quality result carry issue code PICO-002 or
PICO-003. -/
theorem validate_outcome_quality_id (os : List String) :
    ∀ i ∈ validate_outcome_quality os, i.id = "PICO-002" ∨ i.id = "PICO-003" := by
  intro i hi
  unfold validate_outcome_quality at hi
  rcases List.mem_append.mp hi with hi | hi <;> split_ifs at hi <;>
    first
      | exact absurd hi (List.not_mem_nil i)
      | (rw [List.mem_singleton] at hi; rw [hi]; simp)

/-- Members of the population-specificity result carry issue code PICO-004 or
PICO-005. -/
theorem validate_population_specificity_id (f : String → Bool) (p : String) :
    ∀ i ∈ validate_population_specificity f p,
      i.id = "PICO-004" ∨ i.id = "PICO-005" := by
  intro i hi
  unfold validate_population_specificity at hi
  rcases List.mem_append.mp hi with hi | hi <;> split_ifs at hi <;>
    first
      | exact absurd hi (List.not_mem_nil i)
      | (rw [List.mem_singleton] at hi; rw [hi]; simp)

/-- No validation issue reuses the completeness code. -/
theorem pico_enhanced_checks_id (f : String → Bool) (q : PICO) :
    ∀ i ∈ pico_enhanced_checks f q, i.id ≠ "PICO-001" := by
  intro i hi
  unfold pico_enhanced_checks at hi
  rcases List.mem_append.mp hi with hi | hi
  · rcases List.mem_append.mp hi with hi | hi
    · split_ifs at hi with h
      · rcases validate_outcome_quality_id _ i hi with h2 | h2 <;> rw [h2] <;> decide
      · exact absurd hi (List.not_mem_nil i)
    · rcases hp : q.population with _ | p
      · rw [hp, population_branch_none] at hi
        exact absurd hi (List.not_mem_nil i)
      · rw [hp, population_branch_some] at hi
        split_ifs at hi with h
        · rcases validate_population_specificity_id f p i hi with h2 | h2 <;>
            rw [h2] <;> decide
        · exact absurd hi (List.not_mem_nil i)
  · split_ifs at hi with h
    · exact absurd hi (List.not_mem_nil i)
    · rw [List.mem_singleton] at hi; rw [hi]; simp

/-- Claim C4: with no question at all, the rule-based PICO parser returns
exactly one issue, PICO-001 at severity "high" with all four elements listed
missing; with a question missing exactly one element the single PICO-001
issue has severity "medium"; and a high-severity PICO-001 can only arise
when more than 2 elements are missing. -/
theorem claim4_pico001 (f : String → Bool) (m : Manuscript) :
    (m.question = none →
      pico_parser_run f m =
        [{ id := "PICO-001", severity := "high", category := "PICO",
           item := "Incomplete PICO specification",
           evidence := some (.missing
             ["population", "intervention", "comparator", "outcomes"]),
           recommendation := some "Provide explicit PICO fields; list concrete primary/secondary outcomes with timepoints.",
           agent := some "PICO-Parser" }]) ∧
    (∀ q, m.question = some q → (missing_elements q).length = 1 →
      (pico_parser_run f m).filter (fun i => i.id = "PICO-001") =
        [{ id := "PICO-001", severity := "medium", category := "PICO",
           item := "Incomplete PICO specification",
           evidence := some (.missing (missing_elements q)),
           recommendation := some "Provide explicit PICO fields; list concrete primary/secondary outcomes with timepoints.",
           agent := some "PICO-Parser" }]) ∧
    (∀ q, m.question = some q →
      ∀ i ∈ pico_parser_run f m, i.id = "PICO-001" → i.severity = "high" →
        2 < (missing_elements q).length) := by
  refine ⟨?_, ?_, ?_⟩
  · intro hq
    rw [pico_parser_run, hq, pico_missing_none, pico_question_checks_none]
    simp
  · intro q hq hlen
    have hne : missing_elements q ≠ [] := by
      intro h; rw [h] at hlen; exact absurd hlen (by decide)
    have hsev : ¬ 2 < (missing_elements q).length := by omega
    rw [pico_parser_run, hq, pico_missing_some, pico_question_checks_some,
      List.filter_append, if_pos hne, if_neg hsev]
    have h2 : (pico_enhanced_checks f q).filter (fun i => i.id = "PICO-001") = [] := by
      rw [List.filter_eq_nil_iff]
      intro i hi
      simpa using pico_enhanced_checks_id f q i hi
    rw [h2, List.append_nil]
    simp
  · intro q hq i hi hid hsev
    by_contra hgt
    rw [pico_parser_run, hq, pico_missing_some, pico_question_checks_some] at hi
    rcases List.mem_append.mp hi with hi | hi
    · by_cases hne : missing_elements q ≠ []
      · rw [if_pos hne, if_neg hgt, List.mem_singleton] at hi
        subst hi
        exact (show ("medium" : String) ≠ "high" by decide) hsev
      · rw [if_neg hne] at hi
        exact absurd hi (List.not_mem_nil i)
    · exact absurd hid (pico_enhanced_checks_id f q i hi)

/-- Concrete question whose only missing element is the comparator. -/
def picoOnlyComparatorMissing : PICO :=
  { population := some "adults", intervention := some "statin",
    outcomes := ["mortality"] }

/-- Concrete manuscript with no question at all. -/
def manuscriptNoQuestion : Manuscript := { manuscript_id := "m1" }

/-- Concrete manuscript whose question misses exactly one element. -/
def manuscriptOneMissing : Manuscript :=
  { manuscript_id := "m2", question := some picoOnlyComparatorMissing }

/-- Claim C4 witness: both conjuncts applied to concrete manuscripts (no
question at all; a question whose only missing element is the comparator). -/
theorem claim4_witness :
    pico_parser_run (fun _ => false) manuscriptNoQuestion =
      [{ id := "PICO-001", severity := "high", category := "PICO",
         item := "Incomplete PICO specification",
         evidence := some (.missing
           ["population", "intervention", "comparator", "outcomes"]),
         recommendation := some "Provide explicit PICO fields; list concrete primary/secondary outcomes with timepoints.",
         agent := some "PICO-Parser" }] ∧
    (pico_parser_run (fun _ => false) manuscriptOneMissing).filter
        (fun i => i.id = "PICO-001") =
      [{ id := "PICO-001", severity := "medium", category := "PICO",
         item := "Incomplete PICO specification",
         evidence := some (.missing (missing_elements picoOnlyComparatorMissing)),
         recommendation := some "Provide explicit PICO fields; list concrete primary/secondary outcomes with timepoints.",
         agent := some "PICO-Parser" }] :=
  ⟨(claim4_pico001 (fun _ => false) manuscriptNoQuestion).1 rfl,
   (claim4_pico001 (fun _ => false) manuscriptOneMissing).2.1
     picoOnlyComparatorMissing rfl (by decide)⟩

/-- Claim C9: the completeness check reports "comparator" missing exactly
when the field is `None`; an explicit empty-string comparator is not
reported, whereas empty-string population/intervention and an empty outcome
list are. -/
theorem claim9_comparator_none_only (q : PICO) :
    ("comparator" ∈ missing_elements q ↔ q.comparator = none) ∧
    (q.comparator = some "" → "comparator" ∉ missing_elements q) ∧
    (q.population = some "" → "population" ∈ missing_elements q) ∧
    (q.intervention = some "" → "intervention" ∈ missing_elements q) ∧
    (q.outcomes = [] → "outcomes" ∈ missing_elements q) := by
  refine ⟨?_, ?_, ?_, ?_, ?_⟩
  · unfold missing_elements
    split_ifs <;> simp_all <;> decide
  · intro hc
    unfold missing_elements
    rw [hc]
    split_ifs <;> simp_all <;> decide
  · intro hp
    unfold missing_elements
    rw [hp]
    split_ifs <;> simp_all [optStrFalsy]
  · intro hi
    unfold missing_elements
    rw [hi]
    split_ifs <;> simp_all [optStrFalsy]
  · intro ho
    unfold missing_elements
    rw [ho]
    split_ifs <;> simp_all

/-- Claim C9 witness: a question with empty-string comparator and
empty-string population is flagged for the population but not the
comparator. -/
theorem claim9_witness :
    ("comparator" ∉ missing_elements
        { population := some "", intervention := some "x", comparator := some "",
          outcomes := ["y"] }) ∧
    ("population" ∈ missing_elements
        { population := some "", intervention := some "x", comparator := some "",
          outcomes := ["y"] }) :=
  ⟨(claim9_comparator_none_only _).2.1 rfl, (claim9_comparator_none_only _).2.2.1 rfl⟩

/-! ## Document-ingestion PICO extraction (app/utils/pdf_ingest.py)

`TextExtractor.extract_pico_elements` fills a dict
`pico_data = {framework: "PICO", population, intervention, comparator,
outcomes}` from regex matches, optionally backfills a missing population from
NLP entities, and returns a `PICO` only when
`sum(1 for v in pico_data.values() if v) >= 2`.  The regex engine and the
spaCy pipeline are external; their outputs are the oracle inputs below.  Note
that `pico_data.values()` includes the `framework` entry, which is the
constant truthy string "PICO". -/

/-- Results of the four `re.findall` pattern scans, already post-processed as
in the source: first match stripped for the three text fields, and the
outcomes text split on delimiters into trimmed non-empty fragments. -/
structure PicoMatches where
  population : Option String := none
  intervention : Option String := none
  comparator : Option String := none
  outcomes : List String := []
deriving DecidableEq

/-- Dict state after applying the outcome cap and the optional NLP population
backfill (pdf_ingest.py lines 74-85 and 104-109): outcomes are capped at the
first 5 fragments; when the NLP pipeline is available (the guard
`self.nlp and any(pico_data.values())` always passes the `any` because the
framework entry is truthy) and the population entry is falsy, the first
population-indicative entity, if any, is written into the population slot. -/
def assemble_pico_data (mt : PicoMatches) (nlpAvailable : Bool)
    (nlpPopulation : Option String) : PicoMatches :=
  let base := { mt with outcomes := mt.outcomes.take 5 }
  if nlpAvailable then
    if optStrFalsy base.population then
      match nlpPopulation with
      | some p => { base with population := some p }
      | none => base
    else base
  else base

/-- Number of truthy entries among the four PICO fields of the dict. -/
def populated_fields (d : PicoMatches) : Nat :=
  (if optStrFalsy d.population then 0 else 1) +
  (if optStrFalsy d.intervention then 0 else 1) +
  (if optStrFalsy d.comparator then 0 else 1) +
  (if d.outcomes = [] then 0 else 1)

/-- Embedding of `TextExtractor.extract_pico_elements` (pdf_ingest.py lines
52-91).  The truthy-entry count ranges over all five dict values: the constant
framework entry contributes 1, the four extracted fields contribute
`populated_fields`. -/
def extract_pico_elements (mt : PicoMatches) (nlpAvailable : Bool)
    (nlpPopulation : Option String) : Option PICO :=
  let d := assemble_pico_data mt nlpAvailable nlpPopulation
  if 2 ≤ 1 + populated_fields d then
    some { framework := "PICO", population := d.population,
           intervention := d.intervention, comparator := d.comparator,
           outcomes := d.outcomes }
  else none

/-- Claim C8 counterexample: with only the intervention pattern matching
(one of the four fields populated, no NLP), the extractor still returns a
PICO record, because the constant framework entry is counted toward the
two-truthy-values threshold; the claim as stated says no PICO is returned
when fewer than two of the four fields are populated. -/
theorem claim8_counterexample :
    (extract_pico_elements { intervention := some "aspirin" } false none).isSome
      = true ∧
    populated_fields
      (assemble_pico_data { intervention := some "aspirin" } false none) = 1 := by
  constructor <;> rfl

/-- Claim C8 as amended: the extraction returns a PICO record if and only if
at least one of its four fields is populated (equivalently, the always-truthy
framework entry plus at least one populated field reaches the threshold of
two truthy dict values). -/
theorem claim8_amended_one_field_threshold (mt : PicoMatches)
    (nlpAvailable : Bool) (nlpPopulation : Option String) :
    (extract_pico_elements mt nlpAvailable nlpPopulation).isSome = true ↔
      1 ≤ populated_fields (assemble_pico_data mt nlpAvailable nlpPopulation) := by
  unfold extract_pico_elements
  by_cases h : 2 ≤ 1 + populated_fields (assemble_pico_data mt nlpAvailable nlpPopulation)
  · rw [if_pos h]
    constructor
    · intro _; omega
    · intro _; rfl
  · rw [if_neg h]
    constructor
    · intro hfalse; exact absurd hfalse (by decide)
    · intro hone; exact absurd (by omega) h

/-! ## SSE sequence numbering (app/main.py)

The two streaming endpoints interleave buffered log lines with orchestration
events produced by the (not-included-in-src) streaming orchestrator; the
event payloads are opaque here and only the assigned `sequence` numbers are
modelled.  The generator of `/review/start/stream` (main.py lines 53-88)
does, per orchestration event: drain pending logs, incrementing `seq` BEFORE
each log emission; then emit the orchestration event with the CURRENT `seq`;
then increment `seq`.  A final drain follows the loop.  The input is the list
of (pending log lines, event) pairs in arrival order plus the logs pending at
the end. -/

/-- One emitted SSE record: its event kind ("log", "event", "extraction",
"manuscript") and the `sequence` number it was assigned. -/
structure Emitted where
  kind : String
  seq : Nat
deriving DecidableEq

/-- Drain one buffered log line: `seq += 1` first, then emit with the new
value (main.py lines 61-63). -/
def drainLog (st : Nat × List Emitted) (_line : String) : Nat × List Emitted :=
  (st.1 + 1, st.2 ++ [{ kind := "log", seq := st.1 + 1 }])

/-- Emit one orchestration event with the current counter, then increment
(main.py lines 64-73). -/
def emitEvent (st : Nat × List Emitted) : Nat × List Emitted :=
  (st.1 + 1, st.2 ++ [{ kind := "event", seq := st.1 }])

/-- Embedding of `start_review_streaming.generate_events` (main.py lines
53-88): `seq = 0`; for each orchestration event, drain the pending logs and
then emit the event; finally drain the remaining logs. -/
def generate_events (batches : List (List String × Unit)) (finalLogs : List String) :
    List Emitted :=
  let st := batches.foldl (fun st b => emitEvent (b.1.foldl drainLog st)) (0, [])
  (finalLogs.foldl drainLog st).2

/-- Embedding of `upload_and_review_streaming.generate_events` (main.py lines
343-394): an extraction event is emitted first with `sequence = 0` followed
by `seq += 1`; the same loop and final drain follow; and a closing
manuscript event is emitted with the current counter, without incrementing. -/
def generate_events_upload (batches : List (List String × Unit))
    (finalLogs : List String) : List Emitted :=
  let st0 : Nat × List Emitted := (1, [{ kind := "extraction", seq := 0 }])
  let st := batches.foldl (fun st b => emitEvent (b.1.foldl drainLog st)) st0
  let st1 := finalLogs.foldl drainLog st
  st1.2 ++ [{ kind := "manuscript", seq := st1.1 }]

/-- Sequence numbers in emission order. -/
def seqsOf (l : List Emitted) : List Nat := l.map fun e => e.seq

/-- Claim C6 evaluation at the failing input: with a single buffered log line
ahead of the first orchestration event, `/review/start/stream` emits
sequences [1, 1] — the log is pre-incremented to 1 and the following
orchestration event reuses 1, also skipping 0 — so the sequence numbers are
not strictly increasing; with no logs at all the numbering is the gapless
0, 1.  The upload variant shows the same duplication plus a gap: [0, 2, 2, 3].
This refutes the claimed strict monotonicity and documents the mismatch
between pre-increment on the log path and post-increment on the event
path. -/
theorem claim6_sequence_duplication :
    seqsOf (generate_events [(["line"], ())] []) = [1, 1] ∧
    ¬ List.Chain' (· < ·) (seqsOf (generate_events [(["line"], ())] [])) ∧
    seqsOf (generate_events [([], ()), ([], ())] []) = [0, 1] ∧
    seqsOf (generate_events_upload [(["line"], ())] []) = [0, 2, 2, 3] ∧
    ¬ List.Chain' (· < ·) (seqsOf (generate_events_upload [(["line"], ())] [])) := by
  refine ⟨rfl, ?_, rfl, rfl, ?_⟩ <;> simp [List.chain'_cons, seqsOf,
    generate_events, generate_events_upload, emitEvent, drainLog]

/-! ## Enhanced PICO parser (app/agents/pico_parser_enhanced.py)

`EnhancedPICOParser.run` is the one agent operation that can write to the
manuscript: line 69 assigns `manuscript.question = enhanced_pico`, guarded by
`if not manuscript.question` on line 68.  Every LLM interaction (the
extraction call, its JSON parsing, and the secondary quality-assessment call)
goes through the network and is modelled by the oracle fields of `EnhEnv`;
the rest of the control flow is embedded as written.  The run is modelled in
state-passing form `Manuscript → List Issue × Manuscript` so that the frame
property is a statement, not a modelling assumption. -/

/-- Oracle environment for the enhanced PICO parser: constructor flags
(`use_llm`, `fallback_to_rules`), whether `get_llm_client()` produced a
client, and the outcome of `_extract_pico_with_llm` (an exception, a parsed
PICO, or `None` for unparseable/incomplete JSON).  `llmValIssues` stands for
the issues produced by `_llm_enhanced_validation`, which swallows its own
failures.  `ageSearch` is the regex oracle shared with the basic parser. -/
structure EnhEnv where
  use_llm : Bool := true
  fallback_to_rules : Bool := true
  clientOk : Bool := true
  extractThrows : Bool := false
  extractResult : Option PICO := none
  errorMsg : String := ""
  llmValIssues : PICO → List Issue := fun _ => []
  ageSearch : String → Bool := fun _ => false

/-- Embedding of `_validate_existing_pico` (pico_parser_enhanced.py lines
190-227).  Unlike the basic parser, the comparator here is checked with
truthiness (`if not pico.comparator`), and the completeness issue carries the
separate code PICO-COMPLETE-001. -/
def validate_existing_pico (env : EnhEnv) (p : PICO) : List Issue :=
  let missing :=
    (if optStrFalsy p.population then ["population"] else []) ++
    (if optStrFalsy p.intervention then ["intervention"] else []) ++
    (if optStrFalsy p.comparator then ["comparator"] else []) ++
    (if p.outcomes = [] then ["outcomes"] else [])
  (if missing ≠ [] then
    [{ id := "PICO-COMPLETE-001",
       severity := if 2 < missing.length then "high" else "medium",
       category := "PICO", item := "Incomplete PICO specification",
       evidence := some (.missing missing),
       recommendation := some "Provide explicit PICO fields for comprehensive systematic review methodology.",
       agent := some "Enhanced-PICO-Parser" }]
  else []) ++
  (if p.outcomes ≠ [] then validate_outcome_quality p.outcomes else []) ++
  population_branch env.ageSearch p.population ++
  (if env.use_llm = true ∧ env.clientOk = true then env.llmValIssues p else [])

/-- Python `x or "Not specified"` on an optional string. -/
def orNotSpecified : Option String → String
  | none => "Not specified"
  | some s => if s = "" then "Not specified" else s

/-- The PICO block of `_extract_available_text` (whitespace of the Python
multi-line f-string is abbreviated to single newlines). -/
def pico_text_of (q : PICO) : String :=
  "Population: " ++ orNotSpecified q.population ++
  "\nIntervention: " ++ orNotSpecified q.intervention ++
  "\nComparator: " ++ orNotSpecified q.comparator ++
  "\nOutcomes: " ++
    (if q.outcomes = [] then "Not specified" else String.intercalate ", " q.outcomes)

/-- One search descriptor line of `_extract_available_text`. -/
def search_text_of (s : SearchDescriptor) : String :=
  let base := s.db ++ ": " ++ orNotSpecified s.strategy
  match s.dates with
  | some d => base ++ " (" ++ d ++ ")"
  | none => base

/-- Embedding of `_extract_available_text` (pico_parser_enhanced.py lines
120-146): title (when truthy), the current PICO rendered as text, and the
joined search descriptors, joined with blank lines. -/
def extract_available_text (m : Manuscript) : String :=
  let parts :=
    (match m.title with
     | some t => if t = "" then [] else ["Title: " ++ t]
     | none => []) ++
    (match m.question with
     | some q => ["PICO: " ++ pico_text_of q]
     | none => []) ++
    (if m.search.isEmpty = true then []
     else ["Search Strategy: " ++
           String.intercalate "; " (m.search.map search_text_of)])
  String.intercalate "\n\n" parts

/-- The issue recorded when LLM extraction throws (lines 100-108). -/
def pico_llm_error_issue (env : EnhEnv) : Issue :=
  { id := "PICO-LLM-ERROR-001", severity := "low", category := "OTHER",
    item := "LLM PICO extraction failed, using rule-based analysis",
    evidence := some (.errorText env.errorMsg),
    recommendation := some "Consider manual PICO specification for optimal analysis.",
    agent := some "Enhanced-PICO-Parser" }

/-- The informational note added after a successful extraction (lines
79-87). -/
def pico_llm_note_issue : Issue :=
  { id := "PICO-LLM-001", severity := "low", category := "PICO",
    item := "PICO elements extracted using AI analysis",
    evidence := some (.extractionNote "LLM" "medium"),
    recommendation := some "Verify AI-extracted PICO elements for accuracy.",
    agent := some "Enhanced-PICO-Parser" }

/-- Issues of the pre-existing question validation (lines 40-44). -/
def existing_question_issues (env : EnhEnv) : Option PICO → List Issue
  | some q => validate_existing_pico env q
  | none => []

@[simp] theorem existing_question_issues_none (env : EnhEnv) :
    existing_question_issues env none = [] := rfl

@[simp] theorem existing_question_issues_some (env : EnhEnv) (q : PICO) :
    existing_question_issues env (some q) = validate_existing_pico env q := rfl

/-- Outcome of a non-throwing `_extract_pico_with_llm` call (lines 59-91):
`None` adds nothing; a parsed PICO is written onto the manuscript only when
no question existed, then validated, with the AI note appended. -/
def extract_success (env : EnhEnv) (m : Manuscript) (issues0 : List Issue) :
    Option PICO → List Issue × Manuscript
  | some p =>
    (issues0 ++ validate_existing_pico env p ++ [pico_llm_note_issue],
     if m.question = none then { m with question := some p } else m)
  | none => (issues0, m)

@[simp] theorem extract_success_none (env : EnhEnv) (m : Manuscript)
    (issues0 : List Issue) : extract_success env m issues0 none = (issues0, m) := rfl

/-- The try/except around the extraction call (lines 58-108). -/
def extract_branch (env : EnhEnv) (m : Manuscript) (issues0 : List Issue) :
    List Issue × Manuscript :=
  if env.extractThrows = true then
    (issues0 ++
      (if env.fallback_to_rules = true then pico_parser_run env.ageSearch m else []) ++
      [pico_llm_error_issue env], m)
  else extract_success env m issues0 env.extractResult

/-- Embedding of `EnhancedPICOParser.run` (pico_parser_enhanced.py lines
32-118) in state-passing form; the second component is the manuscript after
the run. -/
def enhanced_pico_run (env : EnhEnv) (m : Manuscript) : List Issue × Manuscript :=
  if m.question = none ∨ env.use_llm = true then
    if extract_available_text m ≠ "" ∧ env.use_llm = true ∧ env.clientOk = true then
      extract_branch env m (existing_question_issues env m.question)
    else
      (existing_question_issues env m.question ++
        (if env.fallback_to_rules = true then pico_parser_run env.ageSearch m else []),
       m)
  else (existing_question_issues env m.question, m)

/-- The run leaves the manuscript untouched, or — only when no question
existed — writes the extracted PICO into the question slot. -/
theorem enhanced_pico_run_snd (env : EnhEnv) (m : Manuscript) :
    (enhanced_pico_run env m).2 = m ∨
      (m.question = none ∧ ∃ p, env.extractResult = some p ∧
        (enhanced_pico_run env m).2 = { m with question := some p }) := by
  unfold enhanced_pico_run
  split_ifs with h1 h2 h3
  · unfold extract_branch
    split_ifs with ht hf
    · left; rfl
    · left; rfl
    · cases her : env.extractResult with
      | none => left; rfl
      | some p =>
        by_cases hq : m.question = none
        · right
          refine ⟨hq, p, rfl, ?_⟩
          show (if m.question = none then { m with question := some p } else m) = _
          rw [if_pos hq]
        · left
          show (if m.question = none then { m with question := some p } else m) = m
          rw [if_neg hq]
  · left; rfl
  · left; rfl
  · left; rfl

/-- PRISMA oracle environment: constructor flags, client construction
outcome, whether `_llm_enhanced_analysis` escaped with an exception at the
outer `run` level, and the issues it otherwise produced (its internal
failures already degrade to partial lists or a parse-error issue, which the
oracle list covers). -/
structure PrismaEnv where
  use_llm : Bool := true
  clientOk : Bool := true
  llmThrows : Bool := false
  errorMsg : String := ""
  llmIssues : List Issue := []

/-- Truthiness of an optional count: Python `not x` holds for `None` and 0
(used for `n_total`). -/
def optNatFalsy : Option Nat → Bool
  | none => true
  | some n => n = 0

/-- Python `s.startswith(pre)`. -/
def strStarts (s pre : String) : Bool :=
  charsAtFront pre.toList s.toList

/-- Embedding of `_check_search` (prisma_checker.py lines 16-50). -/
def check_search (search : List SearchDescriptor) : List Issue :=
  if search.isEmpty = true then
    [{ id := "PRISMA-SEARCH-000", severity := "high", category := "PRISMA",
       item := "No search strategy reported",
       recommendation := some "Report at least MEDLINE and one additional database; include dates and full strings.",
       agent := some "PRISMA-Checker" }]
  else
    let have_dates := search.all fun s => !(optStrFalsy s.dates)
    let have_db_diversity := 2 ≤ ((search.map fun s => s.db.toLower).dedup).length
    (if have_dates then []
     else
       [{ id := "PRISMA-SEARCH-001", severity := "medium", category := "PRISMA",
          item := "Missing date ranges for one or more databases",
          recommendation := some "Add explicit search date ranges for each database.",
          agent := some "PRISMA-Checker" }]) ++
    (if have_db_diversity then []
     else
       [{ id := "PRISMA-SEARCH-002", severity := "medium", category := "PRISMA",
          item := "Only one database reported",
          recommendation := some "Search multiple databases and justify any limits.",
          agent := some "PRISMA-Checker" }])

/-- Embedding of `_check_flow` (prisma_checker.py lines 52-88); the argument
is the optional manuscript flow, `None` being falsy. -/
def check_flow (flow : Option FlowCounts) : List Issue :=
  match flow with
  | none =>
    [{ id := "PRISMA-FLOW-000", severity := "high", category := "PRISMA",
       item := "No PRISMA flow provided",
       recommendation := some "Provide identification, screening, eligibility and included counts with exclusion reasons.",
       agent := some "PRISMA-Checker" }]
  | some fl =>
    (if fl.identified = none ∨ fl.deduplicated = none ∨ fl.screened = none ∨
        fl.fulltext = none ∨ fl.included = none then
      [{ id := "PRISMA-FLOW-001", severity := "medium", category := "PRISMA",
         item := "Incomplete PRISMA counts",
         evidence := some (.flowPresent fl.identified fl.deduplicated fl.screened
           fl.fulltext fl.included),
         recommendation := some "Report all key counts; ensure totals are traceable.",
         agent := some "PRISMA-Checker" }]
    else []) ++
    (match fl.identified, fl.deduplicated with
     | some idn, some ddp =>
       if idn < ddp then
         [{ id := "PRISMA-FLOW-002", severity := "high", category := "PRISMA",
            item := "Deduplicated exceeds identified",
            evidence := some (.identifiedDedup idn ddp),
            recommendation := some "Verify counts; deduplicated should not exceed identified.",
            agent := some "PRISMA-Checker" }]
       else []
     | _, _ => [])

/-- Python `dict.get(key, default)` over the association-list protocol. -/
def protocolGet (l : List (String × String)) (k dflt : String) : String :=
  match l.find? (fun kv => kv.1 = k) with
  | some kv => kv.2
  | none => dflt

/-- Embedding of `_check_protocol_registration` (prisma_checker.py lines
90-117); an absent or empty protocol dict is falsy. -/
def check_protocol_registration (m : Manuscript) : List Issue :=
  match m.protocol with
  | none =>
    [{ id := "PRISMA-PROTOCOL-001", severity := "high", category := "PRISMA",
       item := "No protocol registration reported",
       recommendation := some "Register protocol in PROSPERO, OSF, or similar registry before starting review.",
       agent := some "PRISMA-Checker" }]
  | some d =>
    if d = [] then
      [{ id := "PRISMA-PROTOCOL-001", severity := "high", category := "PRISMA",
         item := "No protocol registration reported",
         recommendation := some "Register protocol in PROSPERO, OSF, or similar registry before starting review.",
         agent := some "PRISMA-Checker" }]
    else
      let prospero_id := protocolGet d "prospero_id" ""
      if prospero_id ≠ "" ∧ ¬ strStarts prospero_id "CRD" = true then
        [{ id := "PRISMA-PROTOCOL-002", severity := "medium", category := "PRISMA",
           item := "Invalid PROSPERO ID format",
           evidence := some (.providedId prospero_id),
           recommendation := some "PROSPERO IDs should start with CRD followed by numbers.",
           agent := some "PRISMA-Checker" }]
      else []

/-- Embedding of `_check_study_selection` (prisma_checker.py lines 119-149). -/
def check_study_selection (m : Manuscript) : List Issue :=
  let studies_without_design := m.included_studies.filter fun s => optStrFalsy s.design
  let studies_without_n := m.included_studies.filter fun s => optNatFalsy s.n_total
  (if studies_without_design.isEmpty = true then []
  else
    [{ id := "PRISMA-STUDIES-001", severity := "medium", category := "PRISMA",
       item := "Some studies missing design specification",
       evidence := some (.studyIds (studies_without_design.map fun s => s.study_id)),
       recommendation := some "Report study design for all included studies (RCT, cohort, case-control, etc.).",
       agent := some "PRISMA-Checker" }]) ++
  (if studies_without_n.isEmpty = true then []
  else
    [{ id := "PRISMA-STUDIES-002", severity := "medium", category := "PRISMA",
       item := "Some studies missing total sample size",
       evidence := some (.studyIds (studies_without_n.map fun s => s.study_id)),
       recommendation := some "Report total sample size for all included studies.",
       agent := some "PRISMA-Checker" }])

/-- Embedding of `_check_search_comprehensiveness` (prisma_checker.py lines
151-183); the Python set of lowered names is modelled as the deduplicated
list in first-occurrence order. -/
def check_search_comprehensiveness (search : List SearchDescriptor) : List Issue :=
  let db_names := (search.map fun s => s.db.toLower).dedup
  let core_dbs := ["medline", "pubmed", "embase"]
  let strategies_missing := search.filter fun s =>
    match s.strategy with
    | none => true
    | some t => t = "" || t.trim.length < 10
  (if core_dbs.any (fun c => db_names.contains c) then []
   else
     [{ id := "PRISMA-SEARCH-003", severity := "high", category := "PRISMA",
        item := "Missing core medical databases",
        evidence := some (.searchedDbs db_names),
        recommendation := some "Include MEDLINE/PubMed and at least one other major database (Embase, CENTRAL).",
        agent := some "PRISMA-Checker" }]) ++
  (if strategies_missing.isEmpty = true then []
  else
    [{ id := "PRISMA-SEARCH-004", severity := "medium", category := "PRISMA",
       item := "Insufficient search strategy detail",
       evidence := some (.studyIds (strategies_missing.map fun s => s.db)),
       recommendation := some "Provide full search strings for each database, including MeSH terms and keywords.",
       agent := some "PRISMA-Checker" }])

/-- Embedding of `EnhancedPRISMAChecker._run_rule_based_checks`
(prisma_checker.py lines 229-250). -/
def prisma_rule_checks (m : Manuscript) : List Issue :=
  check_search m.search ++ check_flow m.flow ++ check_protocol_registration m ++
  check_study_selection m ++ check_search_comprehensiveness m.search

/-- Embedding of `EnhancedPRISMAChecker.run` (prisma_checker.py lines
194-227): rule checks always run first; the LLM analysis is additive and a
thrown exception degrades to a PRISMA-LLM-ERROR-001 issue. -/
def prisma_checker_issues (env : PrismaEnv) (m : Manuscript) : List Issue :=
  prisma_rule_checks m ++
  (if env.use_llm = true ∧ env.clientOk = true then
    (if env.llmThrows = true then
      [{ id := "PRISMA-LLM-ERROR-001", severity := "low", category := "OTHER",
         item := "LLM PRISMA analysis failed, using rule-based results only",
         evidence := some (.errorText env.errorMsg),
         recommendation := some "Consider manual PRISMA compliance review.",
         agent := some "Enhanced-PRISMA-Checker" }]
    else env.llmIssues)
  else [])

/-- State-passing form of `EnhancedPRISMAChecker.run`: the source contains no
assignment to any manuscript field, so the state component is the input. -/
def prisma_checker_run (env : PrismaEnv) (m : Manuscript) : List Issue × Manuscript :=
  (prisma_checker_issues env m, m)

/-- Risk-of-bias oracle environment: the constructor flag, client
availability, and the per-study result of `_assess_study_with_llm` (whose
internal exception handling — the ROB-LLM-ERROR issue plus the rule-based
fallback — is part of the oracle output). -/
structure RobEnv where
  use_llm : Bool := true
  clientOk : Bool := true
  llmStudyIssues : StudyRecord → List Issue := fun _ => []

/-- Embedding of `_assess_study_rule_based` (rob_assessor.py lines 213-283). -/
def rob_rule_based (s : StudyRecord) : List Issue :=
  (if optStrFalsy s.design then
    [{ id := "ROB-DESIGN-001-" ++ s.study_id, severity := "high", category := "DATA",
       item := "Study design not specified for " ++ s.study_id,
       evidence := some (.studyId s.study_id),
       recommendation := some "Specify study design (RCT, cohort, case-control, etc.) for risk of bias assessment.",
       agent := some "RoB-Assessor" }]
  else []) ++
  (if optNatFalsy s.n_total then
    [{ id := "ROB-SAMPLE-001-" ++ s.study_id, severity := "medium", category := "DATA",
       item := "Sample size not reported for " ++ s.study_id,
       evidence := some (.studyId s.study_id),
       recommendation := some "Report total sample size for precision assessment.",
       agent := some "RoB-Assessor" }]
  else []) ++
  (if s.outcomes.isEmpty = true then
    [{ id := "ROB-OUTCOMES-001-" ++ s.study_id, severity := "high", category := "DATA",
       item := "No outcomes reported for " ++ s.study_id,
       evidence := some (.studyId s.study_id),
       recommendation := some "Include outcome data with effect sizes and confidence intervals.",
       agent := some "RoB-Assessor" }]
  else [])

/-- Embedding of `_assess_overall_rob_reporting` (rob_assessor.py lines
356-386). -/
def rob_overall_reporting (m : Manuscript) : List Issue :=
  let total := m.included_studies.length
  if total = 0 then []
  else
    let withDesign :=
      (m.included_studies.filter fun s => !(optStrFalsy s.design)).length
    if withDesign < total then
      [{ id := "ROB-REPORTING-001", severity := "high", category := "PRISMA",
         item := "Incomplete study design reporting affects risk of bias assessment",
         evidence := some (.designCounts total withDesign (total - withDesign)),
         recommendation := some "Report study design for all included studies to enable proper risk of bias assessment.",
         agent := some "RoB-Assessor" }]
    else []

/-- Embedding of `RoBAssessor.run` (rob_assessor.py lines 45-100): early
return on no studies, one LLM-or-rule-based assessment per study, then the
manuscript-level reporting check. -/
def rob_assessor_issues (env : RobEnv) (m : Manuscript) : List Issue :=
  if m.included_studies.isEmpty = true then []
  else
    (m.included_studies.flatMap fun s =>
      if env.use_llm = true ∧ env.clientOk = true then env.llmStudyIssues s
      else rob_rule_based s) ++
    rob_overall_reporting m

/-- State-passing form of `RoBAssessor.run`: no manuscript field is ever
assigned in the source. -/
def rob_assessor_run (env : RobEnv) (m : Manuscript) : List Issue × Manuscript :=
  (rob_assessor_issues env m, m)

/-- State-passing form of the rule-based PICO parser `run`: it only reads the
manuscript. -/
def pico_parser_run_state (ageSearch : String → Bool) (m : Manuscript) :
    List Issue × Manuscript :=
  (pico_parser_run ageSearch m, m)

/-- State-passing form of `EnhancedMetaAnalysis.run`: it reads
`included_studies` and builds fresh MetaResults (the `fe.outcome = outcome`
assignments on lines 67-68 mutate those results, never the manuscript). -/
noncomputable def meta_analysis_run_state (m : Manuscript) :
    List MetaResult × Manuscript :=
  (meta_analysis_run m, m)

/-- Claim C10: no agent run mutates the manuscript, except that the enhanced
PICO parser may write `question` — and only when it was previously unset; all
other manuscript fields are preserved by every agent on every path, and the
write does happen on the successful-extraction path. -/
theorem claim10_agents_frame (env : EnhEnv) (penv : PrismaEnv) (renv : RobEnv)
    (f : String → Bool) (m : Manuscript) :
    ((enhanced_pico_run env m).2.question ≠ m.question → m.question = none) ∧
    (∀ q, m.question = some q → (enhanced_pico_run env m).2 = m) ∧
    (enhanced_pico_run env m).2.manuscript_id = m.manuscript_id ∧
    (enhanced_pico_run env m).2.title = m.title ∧
    (enhanced_pico_run env m).2.journal = m.journal ∧
    (enhanced_pico_run env m).2.submission_date = m.submission_date ∧
    (enhanced_pico_run env m).2.protocol = m.protocol ∧
    (enhanced_pico_run env m).2.search = m.search ∧
    (enhanced_pico_run env m).2.flow = m.flow ∧
    (enhanced_pico_run env m).2.included_studies = m.included_studies ∧
    (pico_parser_run_state f m).2 = m ∧
    (prisma_checker_run penv m).2 = m ∧
    (rob_assessor_run renv m).2 = m ∧
    (meta_analysis_run_state m).2 = m ∧
    (m.question = none → env.use_llm = true → env.clientOk = true →
      env.extractThrows = false → extract_available_text m ≠ "" →
      ∀ p, env.extractResult = some p →
        (enhanced_pico_run env m).2.question = some p) := by
  have hsnd := enhanced_pico_run_snd env m
  have hpres : (enhanced_pico_run env m).2.manuscript_id = m.manuscript_id ∧
      (enhanced_pico_run env m).2.title = m.title ∧
      (enhanced_pico_run env m).2.journal = m.journal ∧
      (enhanced_pico_run env m).2.submission_date = m.submission_date ∧
      (enhanced_pico_run env m).2.protocol = m.protocol ∧
      (enhanced_pico_run env m).2.search = m.search ∧
      (enhanced_pico_run env m).2.flow = m.flow ∧
      (enhanced_pico_run env m).2.included_studies = m.included_studies := by
    rcases hsnd with h | ⟨_, p, _, h⟩ <;> rw [h] <;>
      exact ⟨rfl, rfl, rfl, rfl, rfl, rfl, rfl, rfl⟩
  refine ⟨?_, ?_, hpres.1, hpres.2.1, hpres.2.2.1, hpres.2.2.2.1, hpres.2.2.2.2.1,
    hpres.2.2.2.2.2.1, hpres.2.2.2.2.2.2.1, hpres.2.2.2.2.2.2.2, rfl, rfl, rfl, rfl, ?_⟩
  · intro hne
    rcases hsnd with h | ⟨hq, _, _, _⟩
    · exact absurd (by rw [h]) hne
    · exact hq
  · intro q hq
    rcases hsnd with h | ⟨hq0, _, _, _⟩
    · exact h
    · rw [hq] at hq0; cases hq0
  · intro hq hu hc ht htext p her
    simp only [enhanced_pico_run]
    rw [if_pos (Or.inl hq), if_pos ⟨htext, hu, hc⟩]
    simp only [extract_branch]
    rw [if_neg (by rw [ht]; exact Bool.false_ne_true), her]
    simp only [extract_success]
    show (if m.question = none then { m with question := some p } else m).question = some p
    rw [if_pos hq]

/-- Claim C10 witness: with a question already present the enhanced parser
returns the manuscript unchanged; with no question, a working LLM path and a
successful extraction, the extracted PICO is written into the question
slot. -/
theorem claim10_witness :
    (enhanced_pico_run {}
        { manuscript_id := "w10", question := some { population := some "p" } }).2 =
      { manuscript_id := "w10", question := some { population := some "p" } } ∧
    (enhanced_pico_run { extractResult := some {} }
        { manuscript_id := "w11", title := some "Statins in CKD" }).2.question =
      some {} := by
  constructor
  · exact (claim10_agents_frame {} {} {} (fun _ => false) _).2.1
      { population := some "p" } rfl
  · exact (claim10_agents_frame { extractResult := some {} } {} {}
      (fun _ => false) _).2.2.2.2.2.2.2.2.2.2.2.2.2.2 rfl rfl rfl rfl (by decide) {} rfl

/-! ## Orchestrators (app/orchestrator.py, app/langraph_orchestrator.py,
app/main.py)

The sequential `simple_review` / `enhanced_review` and the graph-based
`run_multi_agent_review` are embedded over an environment of oracles:
whether the guarded imports of the LLM agents succeeded
(`LLM_AGENTS_AVAILABLE`), the resolved LLM configuration, and whether each
enhanced path raises.  The langgraph engine itself is external; its
START-supervisor-node dispatch loop is embedded as fuel-bounded iteration of
the supervisor decision written in the source (second `supervisor_agent`
definition, langraph_orchestrator.py lines 119-176), with the compiled
graph's recursion limit of 50 as the fuel. -/

/-- Resolved LLM configuration snapshot (provider, model, availability). -/
structure LlmConfig where
  provider : String
  model : String
  available : Bool
deriving DecidableEq

/-- Orchestrator oracle environment. -/
structure OrchEnv where
  llmConfig : Option LlmConfig := none
  llmAgentsAvailable : Bool := true
  picoThrows : Bool := false
  prismaThrows : Bool := false
  robThrows : Bool := false
  metaThrows : Bool := false
  graphThrows : Bool := false
  enh : EnhEnv := {}
  prismaEnv : PrismaEnv := {}
  robEnv : RobEnv := {}

/-- Embedding of `get_llm_config` (orchestrator.py lines 20-32): `None`
unless the LLM agents imported. -/
def get_llm_config (env : OrchEnv) : Option LlmConfig :=
  if env.llmAgentsAvailable = true then env.llmConfig else none

/-- Python `llm_config["model"] if llm_config and llm_config["available"]
else None`. -/
def cfg_model (c : Option LlmConfig) : Option String :=
  match c with
  | some cfg => if cfg.available = true then some cfg.model else none
  | none => none

/-- Python `llm_config["provider"] if llm_config and llm_config["available"]
else None`. -/
def cfg_provider (c : Option LlmConfig) : Option String :=
  match c with
  | some cfg => if cfg.available = true then some cfg.provider else none
  | none => none

/-- Python `llm_config["available"] if llm_config else False`. -/
def cfg_available (c : Option LlmConfig) : Bool :=
  match c with
  | some cfg => cfg.available
  | none => false

/-- The PICO step of `simple_review` (orchestrator.py lines 52-85): issues
and the single recorded AnalysisMethod. -/
def simple_pico_part (env : OrchEnv) (m : Manuscript) :
    List Issue × List AnalysisMethod :=
  if env.llmAgentsAvailable = true then
    if env.picoThrows = true then
      (pico_parser_run env.enh.ageSearch m,
       [{ agent := "PICO-Parser", method := "rule-based",
          fallback_reason := some "LLM authentication failed" }])
    else
      ((enhanced_pico_run env.enh m).1,
       [{ agent := "PICO-Parser", method := "llm-enhanced",
          llm_model := cfg_model (get_llm_config env),
          llm_provider := cfg_provider (get_llm_config env) }])
  else
    (pico_parser_run env.enh.ageSearch m,
     [{ agent := "PICO-Parser", method := "rule-based" }])

/-- The manuscript seen by the agents after the PICO step of
`simple_review`: the enhanced parser may have updated `question` in place. -/
def simple_m1 (env : OrchEnv) (m : Manuscript) : Manuscript :=
  if env.llmAgentsAvailable = true ∧ env.picoThrows = false then
    (enhanced_pico_run env.enh m).2
  else m

/-- The Risk-of-Bias step of `simple_review` (orchestrator.py lines
97-121): note that when the LLM agents are not importable the step is
skipped entirely and NO AnalysisMethod is recorded. -/
def simple_rob_part (env : OrchEnv) (m : Manuscript) :
    List Issue × List AnalysisMethod :=
  if env.llmAgentsAvailable = true then
    if env.robThrows = true then
      ([], [{ agent := "Risk-of-Bias", method := "rule-based",
              fallback_reason := some "LLM authentication failed" }])
    else
      (rob_assessor_issues { env.robEnv with use_llm := true } m,
       [{ agent := "Risk-of-Bias", method := "llm-enhanced",
          llm_model := cfg_model (get_llm_config env),
          llm_provider := cfg_provider (get_llm_config env) }])
  else ([], [])

/-- Methods recorded by `simple_review`, in execution order. -/
def simple_review_methods (env : OrchEnv) (m : Manuscript) : List AnalysisMethod :=
  (simple_pico_part env m).2 ++
  [{ agent := "PRISMA-Checker", method := "rule-based" }] ++
  (simple_rob_part env (simple_m1 env m)).2 ++
  [{ agent := "Meta-Analysis", method := "rule-based" }]

/-- Embedding of `simple_review` (orchestrator.py lines 34-154).  PRISMA uses
`prisma_checker.run`, which delegates to the enhanced checker with
`use_llm=True`; Meta-Analysis is the statistical core. -/
noncomputable def simple_review (env : OrchEnv) (m : Manuscript) : ReviewResult :=
  { issues := (simple_pico_part env m).1 ++
      prisma_checker_issues { env.prismaEnv with use_llm := true } (simple_m1 env m) ++
      (simple_rob_part env (simple_m1 env m)).1,
    meta := meta_analysis_run (simple_m1 env m),
    analysis_metadata :=
      { analysis_methods := simple_review_methods env m,
        llm_available := cfg_available (get_llm_config env),
        total_llm_calls := ((simple_review_methods env m).filter
          fun am => am.method = "llm-enhanced").length } }

/-- The PICO step of `enhanced_review` (orchestrator.py lines 164-189); the
else branch records the disabled-by-parameter reason. -/
def enhanced_pico_part (env : OrchEnv) (m : Manuscript) (use_llm : Bool) :
    List Issue × List AnalysisMethod :=
  if env.llmAgentsAvailable = true ∧ use_llm = true then
    if env.picoThrows = true then
      (pico_parser_run env.enh.ageSearch m,
       [{ agent := "PICO-Parser", method := "rule-based",
          fallback_reason := some "LLM authentication failed" }])
    else
      ((enhanced_pico_run env.enh m).1,
       [{ agent := "PICO-Parser", method := "llm-enhanced",
          llm_model := cfg_model (get_llm_config env),
          llm_provider := cfg_provider (get_llm_config env) }])
  else
    (pico_parser_run env.enh.ageSearch m,
     [{ agent := "PICO-Parser", method := "rule-based",
        fallback_reason := if use_llm = false then some "LLM disabled by parameter"
          else none }])

/-- The manuscript after the PICO step of `enhanced_review`. -/
def enhanced_m1 (env : OrchEnv) (m : Manuscript) (use_llm : Bool) : Manuscript :=
  if env.llmAgentsAvailable = true ∧ use_llm = true ∧ env.picoThrows = false then
    (enhanced_pico_run env.enh m).2
  else m

/-- The Risk-of-Bias step of `enhanced_review` (orchestrator.py lines
198-221): unlike `simple_review`, the else branch records an entry whose
reason distinguishes the disabled parameter from unavailable agents. -/
def enhanced_rob_part (env : OrchEnv) (m : Manuscript) (use_llm : Bool) :
    List Issue × List AnalysisMethod :=
  if env.llmAgentsAvailable = true ∧ use_llm = true then
    if env.robThrows = true then
      ([], [{ agent := "Risk-of-Bias", method := "rule-based",
              fallback_reason := some "LLM authentication failed" }])
    else
      (rob_assessor_issues { env.robEnv with use_llm := true } m,
       [{ agent := "Risk-of-Bias", method := "llm-enhanced",
          llm_model := cfg_model (get_llm_config env),
          llm_provider := cfg_provider (get_llm_config env) }])
  else
    ([], [{ agent := "Risk-of-Bias", method := "rule-based",
            fallback_reason := some (if use_llm = false then "LLM disabled by parameter"
              else "LLM agents not available") }])

/-- Methods recorded by `enhanced_review`, in execution order. -/
def enhanced_review_methods (env : OrchEnv) (m : Manuscript) (use_llm : Bool) :
    List AnalysisMethod :=
  (enhanced_pico_part env m use_llm).2 ++
  [{ agent := "PRISMA-Checker", method := "rule-based" }] ++
  (enhanced_rob_part env (enhanced_m1 env m use_llm) use_llm).2 ++
  [{ agent := "Meta-Analysis", method := "rule-based" }]

/-- Embedding of `enhanced_review` (orchestrator.py lines 156-237), the
sequential entry point that honours the `use_llm` flag. -/
noncomputable def enhanced_review (env : OrchEnv) (m : Manuscript) (use_llm : Bool) :
    ReviewResult :=
  { issues := (enhanced_pico_part env m use_llm).1 ++
      prisma_checker_issues { env.prismaEnv with use_llm := true }
        (enhanced_m1 env m use_llm) ++
      (enhanced_rob_part env (enhanced_m1 env m use_llm) use_llm).1,
    meta := meta_analysis_run (enhanced_m1 env m use_llm),
    analysis_metadata :=
      { analysis_methods := enhanced_review_methods env m use_llm,
        llm_available := cfg_available (get_llm_config env),
        total_llm_calls := ((enhanced_review_methods env m use_llm).filter
          fun am => am.method = "llm-enhanced").length } }

/-! ### Graph orchestrator (app/langraph_orchestrator.py) -/

/-- The fixed agent order (langraph_orchestrator.py line 144). -/
def all_agents : List String :=
  ["pico_parser", "prisma_checker", "rob_assessor", "meta_analysis"]

/-- Supervisor decision (langraph_orchestrator.py lines 143-176): terminate
when every agent has completed, else route to the first not-yet-completed
agent in the fixed order. -/
def supervisor_next (completed : List String) : Option String :=
  all_agents.find? fun a => !(completed.contains a)

/-- Availability from the resolved state configuration
(`llm_config.get("available", False)`). -/
def resolved_available (env : OrchEnv) : Bool :=
  match env.llmConfig with
  | some c => c.available
  | none => false

/-- Model name from the resolved state configuration
(`llm_config.get("model")`). -/
def resolved_model (env : OrchEnv) : Option String :=
  match env.llmConfig with
  | some c => some c.model
  | none => none

/-- Provider from the resolved state configuration. -/
def resolved_provider (env : OrchEnv) : Option String :=
  match env.llmConfig with
  | some c => some c.provider
  | none => none

/-- Shared graph state (the `MultiAgentState` TypedDict). -/
structure GState where
  manuscript : Manuscript
  issues : List Issue := []
  meta_results : List MetaResult := []
  analysis_methods : List AnalysisMethod := []
  completed_agents : List String := []

/-- Method recorded by the PICO node (langraph_orchestrator.py lines
196-226): llm-enhanced with model/provider when available; on exception the
plain rule-based entry without a fallback reason. -/
def pico_node_method (env : OrchEnv) : AnalysisMethod :=
  if env.picoThrows = true then { agent := "PICO-Parser", method := "rule-based" }
  else
    { agent := "PICO-Parser",
      method := if resolved_available env = true then "llm-enhanced" else "rule-based",
      llm_model := if resolved_available env = true then resolved_model env else none,
      llm_provider := if resolved_available env = true then resolved_provider env
        else none }

/-- PICO node (langraph_orchestrator.py lines 180-237): the enhanced parser
runs with `use_llm` equal to the resolved availability; both the try and the
except branch append exactly one method entry and the agent name. -/
noncomputable def pico_node (env : OrchEnv) (s : GState) : GState :=
  { manuscript :=
      if env.picoThrows = true then s.manuscript
      else (enhanced_pico_run { env.enh with use_llm := resolved_available env }
        s.manuscript).2,
    issues := s.issues ++
      (if env.picoThrows = true then pico_parser_run env.enh.ageSearch s.manuscript
       else (enhanced_pico_run { env.enh with use_llm := resolved_available env }
         s.manuscript).1),
    meta_results := s.meta_results,
    analysis_methods := s.analysis_methods ++ [pico_node_method env],
    completed_agents := s.completed_agents ++ ["pico_parser"] }

/-- Method recorded by the PRISMA node (langraph_orchestrator.py lines
257-286). -/
def prisma_node_method (env : OrchEnv) : AnalysisMethod :=
  if env.prismaThrows = true then { agent := "PRISMA-Checker", method := "rule-based" }
  else
    { agent := "PRISMA-Checker",
      method := if resolved_available env = true then "llm-enhanced" else "rule-based",
      llm_model := if resolved_available env = true then resolved_model env else none,
      llm_provider := if resolved_available env = true then resolved_provider env
        else none }

/-- PRISMA node (langraph_orchestrator.py lines 240-294); the fallback
`prisma_checker.run` also runs the enhanced checker, with `use_llm=True`. -/
def prisma_node (env : OrchEnv) (s : GState) : GState :=
  { s with
    issues := s.issues ++
      (if env.prismaThrows = true then
        prisma_checker_issues { env.prismaEnv with use_llm := true } s.manuscript
       else prisma_checker_issues
         { env.prismaEnv with use_llm := resolved_available env } s.manuscript),
    analysis_methods := s.analysis_methods ++ [prisma_node_method env],
    completed_agents := s.completed_agents ++ ["prisma_checker"] }

/-- Method recorded by the Risk-of-Bias node (langraph_orchestrator.py lines
306-330): llm-enhanced with the raw `llm_config.get` values on success, a
degraded rule-based entry on exception. -/
def rob_node_method (env : OrchEnv) : AnalysisMethod :=
  if env.robThrows = true then
    { agent := "Risk-of-Bias", method := "rule-based",
      fallback_reason := some "LLM authentication failed" }
  else
    { agent := "Risk-of-Bias", method := "llm-enhanced",
      llm_model := resolved_model env, llm_provider := resolved_provider env }

/-- Risk-of-Bias node (langraph_orchestrator.py lines 297-340): no issues are
added on exception. -/
def rob_node (env : OrchEnv) (s : GState) : GState :=
  { s with
    issues := s.issues ++
      (if env.robThrows = true then []
       else rob_assessor_issues { env.robEnv with use_llm := true } s.manuscript),
    analysis_methods := s.analysis_methods ++ [rob_node_method env],
    completed_agents := s.completed_agents ++ ["rob_assessor"] }

/-- Method recorded by the Meta-Analysis node (langraph_orchestrator.py
lines 360-389). -/
def meta_node_method (env : OrchEnv) : AnalysisMethod :=
  if env.metaThrows = true then { agent := "Meta-Analysis", method := "rule-based" }
  else
    { agent := "Meta-Analysis",
      method := if resolved_available env = true then "llm-enhanced" else "rule-based",
      llm_model := if resolved_available env = true then resolved_model env else none,
      llm_provider := if resolved_available env = true then resolved_provider env
        else none }

/-- Meta-Analysis node (langraph_orchestrator.py lines 343-399); both paths
compute the same statistical core. -/
noncomputable def meta_node (env : OrchEnv) (s : GState) : GState :=
  { s with
    meta_results := s.meta_results ++ meta_analysis_run s.manuscript,
    analysis_methods := s.analysis_methods ++ [meta_node_method env],
    completed_agents := s.completed_agents ++ ["meta_analysis"] }

/-- Dispatch an agent name to its node. -/
noncomputable def run_agent_node (env : OrchEnv) (name : String) (s : GState) : GState :=
  if name = "pico_parser" then pico_node env s
  else if name = "prisma_checker" then prisma_node env s
  else if name = "rob_assessor" then rob_node env s
  else if name = "meta_analysis" then meta_node env s
  else s

/-- One supervisor round trip: `none` means the supervisor routed to END. -/
noncomputable def graph_step (env : OrchEnv) (s : GState) : Option GState :=
  match supervisor_next s.completed_agents with
  | none => none
  | some a => some (run_agent_node env a s)

/-- Fuel-bounded execution of the compiled graph (recursion limit 50,
langraph_orchestrator.py line 422). -/
noncomputable def graph_run (env : OrchEnv) : Nat → GState → GState
  | 0, s => s
  | n + 1, s =>
    match graph_step env s with
    | none => s
    | some s2 => graph_run env n s2

/-- The initial state of `run_multi_agent_review` (langraph_orchestrator.py
lines 451-460). -/
def initial_state (m : Manuscript) : GState := { manuscript := m }

/-- Embedding of `run_multi_agent_review` (langraph_orchestrator.py lines
441-512): run the graph to completion and package the final state; if graph
execution throws, fall back to `simple_review`. -/
noncomputable def run_multi_agent_review (env : OrchEnv) (m : Manuscript) :
    ReviewResult :=
  if env.graphThrows = true then simple_review env m
  else
    { issues := (graph_run env 50 (initial_state m)).issues,
      meta := (graph_run env 50 (initial_state m)).meta_results,
      analysis_metadata :=
        { analysis_methods := (graph_run env 50 (initial_state m)).analysis_methods,
          llm_available := resolved_available env,
          total_llm_calls :=
            ((graph_run env 50 (initial_state m)).analysis_methods.filter
              fun am => am.method = "llm-enhanced").length } }

/-- Embedding of `run_enhanced_multi_agent_review` (langraph_orchestrator.py
lines 516-520): despite its docstring promising LLM control, the body
discards `use_llm` and delegates to `run_multi_agent_review`. -/
noncomputable def run_enhanced_multi_agent_review (env : OrchEnv) (m : Manuscript)
    (_use_llm : Bool) : ReviewResult :=
  run_multi_agent_review env m

/-- Embedding of the `/review/enhanced` handler `start_enhanced_review`
(main.py lines 102-105). -/
noncomputable def start_enhanced_review (env : OrchEnv) (m : Manuscript)
    (use_llm : Bool) : ReviewResult :=
  run_enhanced_multi_agent_review env m use_llm

/-- Completing the graph visits each agent once, in the fixed order. -/
theorem graph_run_completed (env : OrchEnv) (m : Manuscript) :
    (graph_run env 50 (initial_state m)).completed_agents = all_agents := rfl

/-- The graph records exactly the four node method entries, in order. -/
theorem graph_run_methods (env : OrchEnv) (m : Manuscript) :
    (graph_run env 50 (initial_state m)).analysis_methods =
      [pico_node_method env, prisma_node_method env, rob_node_method env,
       meta_node_method env] := rfl

theorem pico_node_method_agent (env : OrchEnv) :
    (pico_node_method env).agent = "PICO-Parser" := by
  unfold pico_node_method; split_ifs <;> rfl

theorem prisma_node_method_agent (env : OrchEnv) :
    (prisma_node_method env).agent = "PRISMA-Checker" := by
  unfold prisma_node_method; split_ifs <;> rfl

theorem rob_node_method_agent (env : OrchEnv) :
    (rob_node_method env).agent = "Risk-of-Bias" := by
  unfold rob_node_method; split_ifs <;> rfl

theorem meta_node_method_agent (env : OrchEnv) :
    (meta_node_method env).agent = "Meta-Analysis" := by
  unfold meta_node_method; split_ifs <;> rfl

theorem simple_pico_part_agents (env : OrchEnv) (m : Manuscript) :
    ((simple_pico_part env m).2).map (fun a => a.agent) = ["PICO-Parser"] := by
  unfold simple_pico_part; split_ifs <;> rfl

theorem simple_rob_part_agents (env : OrchEnv) (m : Manuscript)
    (h : env.llmAgentsAvailable = true) :
    ((simple_rob_part env m).2).map (fun a => a.agent) = ["Risk-of-Bias"] := by
  unfold simple_rob_part
  rw [if_pos h]
  split_ifs <;> rfl

/-- Claim C5: a multi-agent review run to completion (no graph-level
exception) ends with `completed_agents` equal to the four agent names — each
exactly once — and records exactly one AnalysisMethod per agent, in order;
the sequential `simple_review` likewise records exactly one entry per agent
whenever the LLM agents are importable (which holds for the shipped code:
the guarded imports are repository modules with stdlib-only module-level
imports). -/
theorem claim5_agent_coverage (env : OrchEnv) (m : Manuscript) :
    (env.graphThrows = false →
      (graph_run env 50 (initial_state m)).completed_agents = all_agents ∧
      (∀ a ∈ all_agents,
        ((graph_run env 50 (initial_state m)).completed_agents.count a) = 1) ∧
      (run_multi_agent_review env m).analysis_metadata.analysis_methods.map
          (fun a => a.agent) =
        ["PICO-Parser", "PRISMA-Checker", "Risk-of-Bias", "Meta-Analysis"]) ∧
    (env.llmAgentsAvailable = true →
      (simple_review env m).analysis_metadata.analysis_methods.map
          (fun a => a.agent) =
        ["PICO-Parser", "PRISMA-Checker", "Risk-of-Bias", "Meta-Analysis"]) := by
  constructor
  · intro hg
    refine ⟨graph_run_completed env m, ?_, ?_⟩
    · rw [graph_run_completed env m]
      decide
    · rw [run_multi_agent_review, if_neg (by rw [hg]; exact Bool.false_ne_true)]
      show (graph_run env 50 (initial_state m)).analysis_methods.map
          (fun a => a.agent) = _
      rw [graph_run_methods env m]
      simp [pico_node_method_agent, prisma_node_method_agent,
        rob_node_method_agent, meta_node_method_agent]
  · intro h
    show (simple_review_methods env m).map (fun a => a.agent) = _
    unfold simple_review_methods
    rw [List.map_append, List.map_append, List.map_append,
      simple_pico_part_agents, simple_rob_part_agents env _ h]
    rfl

/-- Claim C5 witness: the theorem applied to the default environment (all
imports succeed, nothing throws) and a concrete manuscript. -/
theorem claim5_witness :
    (graph_run {} 50 (initial_state { manuscript_id := "w5" })).completed_agents =
      all_agents ∧
    (run_multi_agent_review {} { manuscript_id := "w5" }).analysis_metadata.analysis_methods.map
        (fun a => a.agent) =
      ["PICO-Parser", "PRISMA-Checker", "Risk-of-Bias", "Meta-Analysis"] ∧
    (simple_review {} { manuscript_id := "w5" }).analysis_metadata.analysis_methods.map
        (fun a => a.agent) =
      ["PICO-Parser", "PRISMA-Checker", "Risk-of-Bias", "Meta-Analysis"] :=
  ⟨((claim5_agent_coverage {} { manuscript_id := "w5" }).1 rfl).1,
   ((claim5_agent_coverage {} { manuscript_id := "w5" }).1 rfl).2.2,
   (claim5_agent_coverage {} { manuscript_id := "w5" }).2 rfl⟩

/-- A resolved, available LLM configuration. -/
def live_config : LlmConfig :=
  { provider := "openrouter", model := "anthropic/claude-3.5-haiku",
    available := true }

/-- A configured, working LLM environment: configuration resolved and
available, no exceptions anywhere. -/
def live_env : OrchEnv := { llmConfig := some live_config }

/-- A minimal valid manuscript for exercising `/review/enhanced`. -/
def live_manuscript : Manuscript := { manuscript_id := "c7" }

/-- Claim C7 evaluation at the failing input: the `/review/enhanced` handler
passes `use_llm` to `run_enhanced_multi_agent_review`, whose body discards it
and runs the availability-gated multi-agent review, so the response is
independent of the parameter; at `use_llm=false` with a configured LLM every
recorded AnalysisMethod has method "llm-enhanced" and no entry carries the
"LLM disabled by parameter" reason — contradicting the claim.  By contrast
the sequential `enhanced_review` (orchestrator.py), which the endpoint does
NOT call, implements exactly the claimed behaviour. -/
theorem claim7_use_llm_parameter_ignored :
    (∀ (env : OrchEnv) (m : Manuscript) (b1 b2 : Bool),
      start_enhanced_review env m b1 = start_enhanced_review env m b2) ∧
    (start_enhanced_review live_env live_manuscript
        false).analysis_metadata.analysis_methods.map (fun a => a.method) =
      ["llm-enhanced", "llm-enhanced", "llm-enhanced", "llm-enhanced"] ∧
    (∀ a ∈ (start_enhanced_review live_env live_manuscript
        false).analysis_metadata.analysis_methods,
      a.fallback_reason ≠ some "LLM disabled by parameter") ∧
    (enhanced_review live_env live_manuscript
        false).analysis_metadata.analysis_methods.map (fun a => a.method) =
      ["rule-based", "rule-based", "rule-based", "rule-based"] ∧
    (enhanced_review live_env live_manuscript
        false).analysis_metadata.analysis_methods.map (fun a => a.fallback_reason) =
      [some "LLM disabled by parameter", none, some "LLM disabled by parameter",
       none] := by
  refine ⟨fun env m b1 b2 => rfl, rfl, ?_, rfl, rfl⟩
  intro a ha
  have hm : (start_enhanced_review live_env live_manuscript
      false).analysis_metadata.analysis_methods =
      [pico_node_method live_env, prisma_node_method live_env,
       rob_node_method live_env, meta_node_method live_env] := rfl
  rw [hm] at ha
  fin_cases ha <;> decide

end SR
